import Mathlib

/-!
Shallow embedding of the property-management backend's lifecycle services
(app/services/{contract,payment,property,maintenance}.py) and of the list
endpoints (app/api/v1/endpoints/{contracts,payments,maintenance}.py).

Conventions of the embedding:
* the relational store is a `DB` record of lists of rows;
* SQLAlchemy `query(...).filter(...).first()` becomes `List.find?`;
* mutating a fetched row followed by `commit` becomes replacing the first
  matching row of the list (`replaceFirstBy`);
* `HTTPException(status_code, detail)` becomes `Except.error (.http code detail)`;
* an uncaught Python `ValueError`/`AttributeError` (a 500 on the wire)
  becomes `Except.error .valueError`;
* a service raising before any write returns `Except.error`, which carries no
  state: failures leave the store untouched by construction, matching
  SQLAlchemy's rollback of an uncommitted session;
* Python truthiness of `Optional[int]`/`Optional[float]` fields (`if x:`)
  is `none` and `some 0` falsy, everything else truthy; an enum member is
  always truthy; a string is truthy iff non-empty;
* `datetime.date` is a `Date` record validated by `mkDate` (the constructor
  raises `ValueError` on an invalid year/month/day combination, which
  `mkDate` renders as `none`).
-/

namespace PropertyMgmt

/-- Roles from app/models/user.py `UserRole`. -/
inductive UserRole where
  | admin | agent | owner | tenant
deriving DecidableEq, Repr

/-- Statuses from app/models/property.py `PropertyStatus`. -/
inductive PropertyStatus where
  | available | rented | sold | maintenance
deriving DecidableEq, Repr

/-- Types from app/models/contract.py `ContractType`. -/
inductive ContractType where
  | rental | sale
deriving DecidableEq, Repr

/-- Statuses from app/models/contract.py `ContractStatus`. -/
inductive ContractStatus where
  | active | expired | terminated | pending
deriving DecidableEq, Repr

/-- Types from app/models/payment.py `PaymentType`. -/
inductive PaymentType where
  | rent | deposit | charges | maintenance | other
deriving DecidableEq, Repr

/-- Statuses from app/models/payment.py `PaymentStatus`. -/
inductive PaymentStatus where
  | pending | paid | overdue | cancelled
deriving DecidableEq, Repr

/-- Types from app/models/maintenance.py `MaintenanceType` (a str enum). -/
inductive MaintenanceType where
  | repair | renovation | inspection | emergency | other
deriving DecidableEq, Repr

/-- Statuses from app/models/maintenance.py `MaintenanceStatus`. -/
inductive MaintenanceStatus where
  | pending | in_progress | completed | cancelled
deriving DecidableEq, Repr

/-- String value of a `PaymentType` (the Python enum is a `str` enum, so a
column compares equal to its string value). -/
def PaymentType.str : PaymentType → String
  | .rent => "rent"
  | .deposit => "deposit"
  | .charges => "charges"
  | .maintenance => "maintenance"
  | .other => "other"

/-- String value of a `MaintenanceType`. -/
def MaintenanceType.str : MaintenanceType → String
  | .repair => "repair"
  | .renovation => "renovation"
  | .inspection => "inspection"
  | .emergency => "emergency"
  | .other => "other"

/-- A calendar date as the triple Python's `datetime.date` carries. -/
structure Date where
  year : Nat
  month : Nat
  day : Nat
deriving DecidableEq, Repr

/-- Python `date` comparison: lexicographic on (year, month, day). -/
def Date.leb (a b : Date) : Bool :=
  if a.year ≠ b.year then decide (a.year < b.year)
  else if a.month ≠ b.month then decide (a.month < b.month)
  else decide (a.day ≤ b.day)

/-- Gregorian leap-year rule used by `datetime.date`. -/
def isLeap (y : Nat) : Bool :=
  (y % 4 == 0 && y % 100 != 0) || (y % 400 == 0)

/-- Number of days of month `m` of year `y` (0 for an out-of-range month,
which `mkDate`'s month bound rejects first). -/
def daysInMonth (y m : Nat) : Nat :=
  match m with
  | 1 => 31
  | 2 => if isLeap y then 29 else 28
  | 3 => 31
  | 4 => 30
  | 5 => 31
  | 6 => 30
  | 7 => 31
  | 8 => 31
  | 9 => 30
  | 10 => 31
  | 11 => 30
  | 12 => 31
  | _ => 0

/-- The `datetime.date(y, m, d)` constructor: `some` on a valid date,
`none` where Python raises `ValueError`. -/
def mkDate (y m d : Nat) : Option Date :=
  if 1 ≤ y ∧ y ≤ 9999 ∧ 1 ≤ m ∧ m ≤ 12 ∧ 1 ≤ d ∧ d ≤ daysInMonth y m then
    some ⟨y, m, d⟩
  else
    none

/-- Row of the `users` table (fields the claims need). -/
structure User where
  id : Nat
  role : UserRole
deriving DecidableEq, Repr

/-- Row of the `properties` table (fields the claims need). -/
structure Property where
  id : Nat
  status : PropertyStatus
  owner_id : Nat
deriving DecidableEq, Repr

/-- Row of the `contracts` table. -/
structure Contract where
  id : Nat
  type : ContractType
  status : ContractStatus
  start_date : Date
  end_date : Option Date
  rent_amount : Option Nat
  deposit_amount : Option Nat
  payment_day : Option Nat
  terms : Option String
  notes : Option String
  property_id : Nat
  tenant_id : Nat
deriving DecidableEq, Repr

/-- Row of the `payments` table. -/
structure Payment where
  id : Nat
  amount : Nat
  type : PaymentType
  status : PaymentStatus
  due_date : Date
  paid_date : Option Date
  reference : Option String
  notes : Option String
  contract_id : Nat
deriving DecidableEq, Repr

/-- Row of the `maintenance_requests` table (fields the claims need). -/
structure MaintenanceRequest where
  id : Nat
  type : MaintenanceType
  status : MaintenanceStatus
  priority : Nat
  property_id : Nat
  requested_by_id : Nat
deriving DecidableEq, Repr

/-- The relational store, with the autoincrement counters of the two tables
the embedded operations insert into. -/
structure DB where
  users : List User
  properties : List Property
  contracts : List Contract
  payments : List Payment
  maintenance_requests : List MaintenanceRequest
  next_contract_id : Nat
  next_payment_id : Nat
deriving DecidableEq, Repr

/-- Errors a service call surfaces: an `HTTPException(code, detail)` or an
uncaught Python exception (`ValueError`/`AttributeError`). -/
inductive ServiceError where
  | http (code : Nat) (detail : String)
  | valueError
deriving DecidableEq, Repr

/-- HTTP status code of a failed call, `none` on success or a non-HTTP crash. -/
def errorCode {α : Type} : Except ServiceError α → Option Nat
  | .error (.http code _) => some code
  | _ => none

/-- Whether a call succeeded. -/
def isOkB {α : Type} : Except ServiceError α → Bool
  | .ok _ => true
  | .error _ => false

/-- Python truthiness of an `Optional[int]` / `Optional[float]` value. -/
def truthy : Option Nat → Bool
  | none => false
  | some n => n != 0

/-- Python truthiness of an `Optional[str]` value. -/
def strTruthy : Option String → Bool
  | none => false
  | some s => s ≠ ""

/-- Replace the first element satisfying `p` (the ORM mutation of the row
`.first()` returned). -/
def replaceFirstBy {α : Type} (p : α → Bool) (new : α) : List α → List α
  | [] => []
  | x :: xs => if p x then new :: xs else x :: replaceFirstBy p new xs

/-- Remove the first element satisfying `p` (`db.delete(row)`). -/
def removeFirstBy {α : Type} (p : α → Bool) : List α → List α
  | [] => []
  | x :: xs => if p x then xs else x :: removeFirstBy p xs

/-- `db.query(Property).filter(Property.id == pid).first()`. -/
def findProperty (s : DB) (pid : Nat) : Option Property :=
  s.properties.find? (fun p => p.id == pid)

/-- `db.query(Contract).filter(Contract.id == cid).first()`. -/
def findContract (s : DB) (cid : Nat) : Option Contract :=
  s.contracts.find? (fun c => c.id == cid)

/-- `db.query(Payment).filter(Payment.id == payid).first()`. -/
def findPayment (s : DB) (payid : Nat) : Option Payment :=
  s.payments.find? (fun p => p.id == payid)

/-- `db.query(User).filter(User.id == uid).first()`. -/
def findUser (s : DB) (uid : Nat) : Option User :=
  s.users.find? (fun u => u.id == uid)

/-- Request body of `POST /contracts` (app/schemas/contract.py `ContractCreate`). -/
structure ContractCreate where
  type : ContractType
  status : ContractStatus
  start_date : Date
  end_date : Option Date
  rent_amount : Option Nat
  deposit_amount : Option Nat
  payment_day : Option Nat
  terms : Option String
  notes : Option String
  property_id : Nat
  tenant_id : Nat
deriving DecidableEq, Repr

/-- Request body of `PUT /contracts/{id}` (app/schemas/contract.py
`ContractUpdate`): the outer `Option` is pydantic's set/unset distinction
(`exclude_unset`); nullable columns carry an inner `Option`. -/
structure ContractUpdate where
  type : Option ContractType
  status : Option ContractStatus
  start_date : Option Date
  end_date : Option (Option Date)
  rent_amount : Option (Option Nat)
  deposit_amount : Option (Option Nat)
  payment_day : Option (Option Nat)
  terms : Option (Option String)
  notes : Option (Option String)
deriving DecidableEq, Repr

/-- Request body of `POST /payments` (app/schemas/payment.py `PaymentCreate`). -/
structure PaymentCreate where
  amount : Nat
  type : PaymentType
  status : PaymentStatus
  due_date : Date
  paid_date : Option Date
  reference : Option String
  notes : Option String
  contract_id : Nat
deriving DecidableEq, Repr

/-- The `setattr` loop of `ContractService.update_contract`: write exactly the
fields present in the request, keep the rest. -/
def applyContractUpdate (u : ContractUpdate) (c : Contract) : Contract :=
  { c with
    type := u.type.getD c.type
    status := u.status.getD c.status
    start_date := u.start_date.getD c.start_date
    end_date := u.end_date.getD c.end_date
    rent_amount := u.rent_amount.getD c.rent_amount
    deposit_amount := u.deposit_amount.getD c.deposit_amount
    payment_day := u.payment_day.getD c.payment_day
    terms := u.terms.getD c.terms
    notes := u.notes.getD c.notes }

/-- `ContractService.create_contract` (app/services/contract.py lines 42-74):
404 if the property is missing, 400 if it is not available, 404 if the tenant
is missing; otherwise insert the contract with the caller-supplied fields and
set the property's status to rented. -/
def create_contract (r : ContractCreate) (s : DB) : Except ServiceError (DB × Contract) :=
  match findProperty s r.property_id with
  | none => .error (.http 404 "Property not found")
  | some p =>
    if p.status ≠ PropertyStatus.available then
      .error (.http 400 "Property is not available")
    else
      match findUser s r.tenant_id with
      | none => .error (.http 404 "Tenant not found")
      | some _ =>
        let c : Contract :=
          { id := s.next_contract_id
            type := r.type
            status := r.status
            start_date := r.start_date
            end_date := r.end_date
            rent_amount := r.rent_amount
            deposit_amount := r.deposit_amount
            payment_day := r.payment_day
            terms := r.terms
            notes := r.notes
            property_id := r.property_id
            tenant_id := r.tenant_id }
        .ok
          ({ s with
              contracts := s.contracts ++ [c]
              properties := replaceFirstBy (fun q => q.id == r.property_id)
                { p with status := PropertyStatus.rented } s.properties
              next_contract_id := s.next_contract_id + 1 }, c)

/-- `ContractService.update_contract` (app/services/contract.py lines 76-86):
404 if missing, else write the fields present in the request. -/
def update_contract (cid : Nat) (u : ContractUpdate) (s : DB) : Except ServiceError (DB × Contract) :=
  match findContract s cid with
  | none => .error (.http 404 "Contract not found")
  | some c =>
    let c' := applyContractUpdate u c
    .ok ({ s with contracts := replaceFirstBy (fun d => d.id == cid) c' s.contracts }, c')

/-- `ContractService.terminate_contract` (app/services/contract.py lines
88-108): 404 if missing, 400 if already terminated; otherwise set the contract
terminated with `end_date = today` and the property back to available.
`contract.property` being absent would be a Python `AttributeError`
(`.valueError` here); foreign-key integrity makes that branch unreachable. -/
def terminate_contract (today : Date) (cid : Nat) (s : DB) : Except ServiceError (DB × Contract) :=
  match findContract s cid with
  | none => .error (.http 404 "Contract not found")
  | some c =>
    if c.status = ContractStatus.terminated then
      .error (.http 400 "Contract is already terminated")
    else
      match findProperty s c.property_id with
      | none => .error .valueError
      | some p =>
        let c' := { c with status := ContractStatus.terminated, end_date := some today }
        .ok
          ({ s with
              contracts := replaceFirstBy (fun d => d.id == cid) c' s.contracts
              properties := replaceFirstBy (fun q => q.id == c.property_id)
                { p with status := PropertyStatus.available } s.properties }, c')

/-- `ContractService.get_contracts` (app/services/contract.py lines 22-40):
optional filters with Python truthiness, then offset/limit. -/
def get_contracts (s : DB) (skip limit : Nat) (property_id tenant_id : Option Nat)
    (st : Option ContractStatus) : List Contract :=
  let q := s.contracts
  let q := if truthy property_id then q.filter (fun c => c.property_id == property_id.getD 0) else q
  let q := if truthy tenant_id then q.filter (fun c => c.tenant_id == tenant_id.getD 0) else q
  let q := match st with
    | some v => q.filter (fun c : Contract => c.status == v)
    | none => q
  (q.drop skip).take limit

/-- `read_contracts` (app/api/v1/endpoints/contracts.py lines 15-36): a tenant
caller has the `tenant_id` filter overwritten with their own id. -/
def read_contracts (user : User) (skip limit : Nat) (property_id tenant_id : Option Nat)
    (st : Option ContractStatus) (s : DB) : List Contract :=
  let tid := if user.role = UserRole.tenant then some user.id else tenant_id
  get_contracts s skip limit property_id tid st

/-- `PropertyService.update_property_status` (app/services/property.py lines
217-223): an unguarded direct status write. -/
def update_property_status (pid : Nat) (st : PropertyStatus) (s : DB) :
    Except ServiceError (DB × Property) :=
  match findProperty s pid with
  | none => .error (.http 404 "Property not found")
  | some p =>
    let p' := { p with status := st }
    .ok ({ s with properties := replaceFirstBy (fun q => q.id == pid) p' s.properties }, p')

/-- `PropertyService.delete_property` (app/services/property.py lines 203-215):
404 if missing; 400 if any contract row references the property
(`property.contracts` is the full relationship, status ignored); else delete. -/
def delete_property (pid : Nat) (s : DB) : Except ServiceError DB :=
  match findProperty s pid with
  | none => .error (.http 404 "Property not found")
  | some p =>
    if s.contracts.filter (fun c => c.property_id == p.id) ≠ [] then
      .error (.http 400 "Cannot delete property with active contracts")
    else
      .ok { s with properties := removeFirstBy (fun q => q.id == pid) s.properties }

/-- `PaymentService.create_payment` (app/services/payment.py lines 41-61):
404 if the contract is missing, 400 if it is not active, else insert. -/
def create_payment (r : PaymentCreate) (s : DB) : Except ServiceError (DB × Payment) :=
  match findContract s r.contract_id with
  | none => .error (.http 404 "Contract not found")
  | some c =>
    if c.status ≠ ContractStatus.active then
      .error (.http 400 "Contract is not active")
    else
      let pay : Payment :=
        { id := s.next_payment_id
          amount := r.amount
          type := r.type
          status := r.status
          due_date := r.due_date
          paid_date := r.paid_date
          reference := r.reference
          notes := r.notes
          contract_id := r.contract_id }
      .ok ({ s with payments := s.payments ++ [pay], next_payment_id := s.next_payment_id + 1 }, pay)

/-- `PaymentService.mark_payment_as_paid` (app/services/payment.py lines
75-90): 404 if missing, 400 if already paid; else set paid with today's date. -/
def mark_payment_as_paid (today : Date) (payid : Nat) (s : DB) :
    Except ServiceError (DB × Payment) :=
  match findPayment s payid with
  | none => .error (.http 404 "Payment not found")
  | some pay =>
    if pay.status = PaymentStatus.paid then
      .error (.http 400 "Payment is already marked as paid")
    else
      let pay' := { pay with status := PaymentStatus.paid, paid_date := some today }
      .ok ({ s with payments := replaceFirstBy (fun q => q.id == payid) pay' s.payments }, pay')

/-- `PaymentService.get_payments` (app/services/payment.py lines 21-39). -/
def get_payments (s : DB) (skip limit : Nat) (contract_id : Option Nat)
    (st : Option PaymentStatus) (ty : Option String) : List Payment :=
  let q := s.payments
  let q := if truthy contract_id then q.filter (fun p => p.contract_id == contract_id.getD 0) else q
  let q := match st with
    | some v => q.filter (fun p : Payment => p.status == v)
    | none => q
  let q := if strTruthy ty then q.filter (fun p => p.type.str == ty.getD "") else q
  (q.drop skip).take limit

/-- `read_payments` (app/api/v1/endpoints/payments.py lines 14-46): for a
tenant caller, `contract_id` is kept only when it is one of the tenant's own
contract ids, and is silently dropped to `None` otherwise. -/
def read_payments (user : User) (skip limit : Nat) (contract_id : Option Nat)
    (st : Option PaymentStatus) (ty : Option String) (s : DB) : List Payment :=
  if user.role = UserRole.tenant then
    let tenant_contracts := (s.contracts.filter (fun c => c.tenant_id == user.id)).map Contract.id
    if tenant_contracts = [] then []
    else
      let cid := match contract_id with
        | some c => if c ∈ tenant_contracts then some c else none
        | none => none
      get_payments s skip limit cid st ty
  else
    get_payments s skip limit contract_id st ty

/-- `MaintenanceService.get_maintenance_requests` (app/services/maintenance.py
lines 22-43). -/
def get_maintenance_requests (s : DB) (skip limit : Nat) (property_id : Option Nat)
    (st : Option MaintenanceStatus) (ty : Option String) (priority : Option Nat) :
    List MaintenanceRequest :=
  let q := s.maintenance_requests
  let q := if truthy property_id then q.filter (fun m => m.property_id == property_id.getD 0) else q
  let q := match st with
    | some v => q.filter (fun m : MaintenanceRequest => m.status == v)
    | none => q
  let q := if strTruthy ty then q.filter (fun m => m.type.str == ty.getD "") else q
  let q := if truthy priority then q.filter (fun m => m.priority == priority.getD 0) else q
  (q.drop skip).take limit

/-- `read_maintenance_requests` (app/api/v1/endpoints/maintenance.py lines
19-54): for a tenant caller, `property_id` is kept only when it is one of the
properties of the tenant's contracts, and is dropped to `None` otherwise. -/
def read_maintenance_requests (user : User) (skip limit : Nat) (property_id : Option Nat)
    (st : Option MaintenanceStatus) (ty : Option String) (priority : Option Nat) (s : DB) :
    List MaintenanceRequest :=
  if user.role = UserRole.tenant then
    let tenant_properties :=
      (s.contracts.filter (fun c => c.tenant_id == user.id)).map Contract.property_id
    if tenant_properties = [] then []
    else
      let pid := match property_id with
        | some p => if p ∈ tenant_properties then some p else none
        | none => none
      get_maintenance_requests s skip limit pid st ty priority
  else
    get_maintenance_requests s skip limit property_id st ty priority

/-- Month counter used to bound the rent-generation loop. -/
def monthIdx (d : Date) : Nat := d.year * 12 + d.month

/-- The pending rent `Payment` built inside the loop of
`PaymentService.generate_rent_payments`; its id is assigned on insertion. -/
def mkRentPayment (cid amount : Nat) (due : Date) : Payment :=
  { id := 0
    amount := amount
    type := PaymentType.rent
    status := PaymentStatus.pending
    due_date := due
    paid_date := none
    reference := none
    notes := none
    contract_id := cid }

/-- Fuel-indexed version of the `while current_date <= end_date` loop of
`generate_rent_payments`; `genLoop` supplies fuel that exactly covers the
months of the range, and `genLoop_unfold` below shows the result satisfies the
loop's recurrence, so the fuel bound is never the reason an iteration stops. -/
def genLoopFuel (cid amount pday : Nat) (endD : Date) : Nat → Date → Except ServiceError (List Payment)
  | 0, _ => .ok []
  | fuel + 1, cur =>
    if Date.leb cur endD then
      match mkDate cur.year cur.month pday with
      | none => .error .valueError
      | some due =>
        match mkDate cur.year (cur.month + 1) cur.day with
        | none => .error .valueError
        | some next =>
          match genLoopFuel cid amount pday endD fuel next with
          | .error e => .error e
          | .ok rest => .ok (mkRentPayment cid amount due :: rest)
    else
      .ok []

/-- The `while current_date <= end_date` loop of `generate_rent_payments`
(app/services/payment.py lines 123-132): each iteration builds the month's due
date with `date(year, month, payment_day)` and steps with
`date(year, month + 1, day)`, both of which can raise `ValueError`. -/
def genLoop (cid amount pday : Nat) (endD cur : Date) : Except ServiceError (List Payment) :=
  genLoopFuel cid amount pday endD (monthIdx endD + 1 - monthIdx cur) cur

/-- Assign autoincrement ids to freshly inserted payment rows, starting at `n`. -/
def numberFrom (n : Nat) : List Payment → List Payment
  | [] => []
  | p :: ps => { p with id := n } :: numberFrom (n + 1) ps

/-- The part of `PaymentService.generate_rent_payments` that runs after the
contract lookup (app/services/payment.py lines 112-132): the guard on
`rent_amount`/`payment_day` truthiness, the default end date one year out, and
the generation loop. It never reads `c.status`. -/
def generate_for_contract (today : Date) (cid : Nat) (c : Contract) :
    Except ServiceError (List Payment) :=
  if !truthy c.rent_amount || !truthy c.payment_day then
    .error (.http 400 "Contract must have rent amount and payment day set")
  else
    match (match c.end_date with
           | some e => some e
           | none => mkDate (today.year + 1) today.month today.day) with
    | none => .error .valueError
    | some endD => genLoop cid (c.rent_amount.getD 0) (c.payment_day.getD 0) endD today

/-- `PaymentService.generate_rent_payments` (app/services/payment.py lines
102-136): 404 if the contract is missing, 400 if `rent_amount`/`payment_day`
is unset (or zero, by Python truthiness), then one pending rent payment per
loop iteration, added to the store. -/
def generate_rent_payments (today : Date) (cid : Nat) (s : DB) :
    Except ServiceError (DB × List Payment) :=
  match findContract s cid with
  | none => .error (.http 404 "Contract not found")
  | some c =>
    match generate_for_contract today cid c with
    | .error e => .error e
    | .ok drafts =>
      let inserted := numberFrom s.next_payment_id drafts
      .ok
        ({ s with
            payments := s.payments ++ inserted
            next_payment_id := s.next_payment_id + drafts.length }, inserted)

/-- Number of contracts in a row list with status active referencing
property `pid`. -/
def countActiveL (contracts : List Contract) (pid : Nat) : Nat :=
  (contracts.filter (fun c => c.property_id == pid && c.status == ContractStatus.active)).length

/-- Number of contracts with status active referencing property `pid`. -/
def countActive (s : DB) (pid : Nat) : Nat :=
  countActiveL s.contracts pid

/-- The spec's rented-status invariant: a property's status is rented iff
exactly one active contract references it. -/
def RentedInv (s : DB) : Prop :=
  ∀ p ∈ s.properties, (p.status = PropertyStatus.rented ↔ countActive s p.id = 1)

instance (s : DB) : Decidable (RentedInv s) := by
  unfold RentedInv; exact List.decidableBAll _ _

/-! ### Supporting lemmas -/

/-- A successful `find?` splits the list at the first hit. -/
lemma find?_split {α : Type} {p : α → Bool} {l : List α} {a : α} (h : l.find? p = some a) :
    ∃ l₁ l₂, l = l₁ ++ a :: l₂ ∧ p a = true ∧ ∀ b ∈ l₁, p b = false := by
  induction l with
  | nil => simp at h
  | cons x xs ih =>
    rw [List.find?_cons] at h
    cases hx : p x with
    | true =>
      rw [hx] at h
      cases h
      exact ⟨[], xs, rfl, hx, by simp⟩
    | false =>
      rw [hx] at h
      obtain ⟨l₁, l₂, heq, hpa, hall⟩ := ih h
      refine ⟨x :: l₁, l₂, by simp [heq], hpa, ?_⟩
      intro b hb
      rcases List.mem_cons.mp hb with rfl | hb
      · exact hx
      · exact hall b hb

/-- Replacing the first hit, spelled on the split produced by `find?_split`. -/
lemma replaceFirstBy_append {α : Type} (p : α → Bool) (new : α) (l₁ l₂ : List α) (a : α)
    (h₁ : ∀ b ∈ l₁, p b = false) (ha : p a = true) :
    replaceFirstBy p new (l₁ ++ a :: l₂) = l₁ ++ new :: l₂ := by
  induction l₁ with
  | nil => simp [replaceFirstBy, ha]
  | cons x xs ih =>
    have hx : p x = false := h₁ x (by simp)
    simp [replaceFirstBy, hx, ih (fun b hb => h₁ b (by simp [hb]))]

/-- `find?` on a list whose prefix misses lands on the head of the suffix. -/
lemma find?_prefix_cons {α : Type} (p : α → Bool) (l₁ l₂ : List α) (a : α)
    (h₁ : ∀ b ∈ l₁, p b = false) (ha : p a = true) :
    (l₁ ++ a :: l₂).find? p = some a := by
  induction l₁ with
  | nil => simp [List.find?_cons, ha]
  | cons x xs ih =>
    have hx : p x = false := h₁ x (by simp)
    simp [List.find?_cons, hx, ih (fun b hb => h₁ b (by simp [hb]))]

/-- Appending one contract row adds to the active count of exactly the
property it actively references. -/
lemma countActiveL_append (l : List Contract) (c : Contract) (x : Nat) :
    countActiveL (l ++ [c]) x
      = countActiveL l x
        + (if c.property_id = x ∧ c.status = ContractStatus.active then 1 else 0) := by
  simp only [countActiveL, List.filter_append, List.length_append, List.filter_singleton]
  by_cases h1 : c.property_id = x <;> by_cases h2 : c.status = ContractStatus.active <;>
    simp [h1, h2, cond_eq_if, beq_iff_eq]

/-- With pairwise-distinct keys, every row other than the split row has a
different key. -/
lemma nodup_key_ne {α β : Type} [DecidableEq β] (f : α → β) {l₁ l₂ : List α} {a q : α}
    (h : ((l₁ ++ a :: l₂).map f).Nodup) (hq : q ∈ l₁ ∨ q ∈ l₂) : f q ≠ f a := by
  rw [List.map_append, List.map_cons, List.nodup_append] at h
  obtain ⟨h₁, h₂, hdisj⟩ := h
  rcases hq with hq | hq
  · intro heq
    exact hdisj (List.mem_map_of_mem f hq) (by simp [heq])
  · intro heq
    exact (List.nodup_cons.mp h₂).1 (heq ▸ List.mem_map_of_mem f hq)

/-! ### C2 — create_contract case analysis -/

/-- C2 (amended): for every create-contract request, a missing property fails
with 404 NotFound; an existing but non-available property fails with HTTP 400
Bad Request (the code raises 400, not 409 Conflict); a missing tenant fails
with 404 NotFound; otherwise the call succeeds, inserting a contract carrying
exactly the caller-supplied fields (status and dates included) and setting the
property's status to rented. Failures return no state: the store is unchanged
on every error path. -/
theorem C2_create_contract_cases (s : DB) (r : ContractCreate) :
    (findProperty s r.property_id = none →
      create_contract r s = .error (.http 404 "Property not found")) ∧
    (∀ p, findProperty s r.property_id = some p → p.status ≠ PropertyStatus.available →
      create_contract r s = .error (.http 400 "Property is not available")) ∧
    (∀ p, findProperty s r.property_id = some p → p.status = PropertyStatus.available →
      findUser s r.tenant_id = none →
      create_contract r s = .error (.http 404 "Tenant not found")) ∧
    (∀ p u, findProperty s r.property_id = some p → p.status = PropertyStatus.available →
      findUser s r.tenant_id = some u → isOkB (create_contract r s) = true) ∧
    (∀ p u, findProperty s r.property_id = some p → p.status = PropertyStatus.available →
      findUser s r.tenant_id = some u →
      ∀ s' c, create_contract r s = .ok (s', c) →
        c.type = r.type ∧ c.status = r.status ∧ c.start_date = r.start_date ∧
        c.end_date = r.end_date ∧ c.rent_amount = r.rent_amount ∧
        c.deposit_amount = r.deposit_amount ∧ c.payment_day = r.payment_day ∧
        c.terms = r.terms ∧ c.notes = r.notes ∧
        c.property_id = r.property_id ∧ c.tenant_id = r.tenant_id ∧
        s'.contracts = s.contracts ++ [c] ∧
        findProperty s' r.property_id = some { p with status := PropertyStatus.rented } ∧
        s'.payments = s.payments ∧ s'.users = s.users ∧
        s'.maintenance_requests = s.maintenance_requests) := by
  refine ⟨?_, ?_, ?_, ?_, ?_⟩
  · intro h
    simp [create_contract, h]
  · intro p hp hne
    simp [create_contract, hp, hne]
  · intro p hp hav hu
    simp [create_contract, hp, hav, hu]
  · intro p u hp hav hu
    simp [create_contract, hp, hav, hu, isOkB]
  · intro p u hp hav hu s' c hok
    simp only [create_contract, hp, hav, hu] at hok
    rw [if_neg (by simp [hav])] at hok
    simp only [Except.ok.injEq, Prod.mk.injEq] at hok
    obtain ⟨hs', hc⟩ := hok
    subst hs'
    subst hc
    obtain ⟨l₁, l₂, heq, ha, hmiss⟩ := find?_split hp
    refine ⟨rfl, rfl, rfl, rfl, rfl, rfl, rfl, rfl, rfl, rfl, rfl, rfl, ?_, rfl, rfl, rfl⟩
    show (replaceFirstBy (fun q => q.id == r.property_id)
      { p with status := PropertyStatus.rented } s.properties).find?
        (fun q => q.id == r.property_id) = _
    rw [heq, replaceFirstBy_append _ _ _ _ _ hmiss ha]
    exact find?_prefix_cons _ _ _ _ hmiss ha

/-- Witness for C2 at a concrete input: the missing-property branch. -/
theorem C2_create_contract_cases_witness :
    create_contract
      { type := .rental, status := .pending, start_date := ⟨2024,1,1⟩, end_date := none,
        rent_amount := some 1000, deposit_amount := none, payment_day := some 5,
        terms := none, notes := none, property_id := 7, tenant_id := 2 }
      { users := [], properties := [], contracts := [], payments := [],
        maintenance_requests := [], next_contract_id := 1, next_payment_id := 1 }
      = .error (.http 404 "Property not found") :=
  (C2_create_contract_cases _ _).1 rfl

/-! ### C1 — the rented-status invariant -/

/-- C1 (counterexample): the rented-status invariant is not maintained by the
exposed operations. From a reachable state (one available property, one
tenant, no contracts) satisfying the invariant, `create_contract` with the
caller-supplied status `pending` succeeds and leaves the property `rented`
with zero active contracts referencing it. -/
theorem C1_pending_create_breaks_rented_inv :
    RentedInv { users := [⟨2, .tenant⟩], properties := [⟨1, .available, 3⟩], contracts := [], payments := [], maintenance_requests := [], next_contract_id := 1, next_payment_id := 1 } ∧
    create_contract
      { type := .rental, status := .pending, start_date := ⟨2024,1,1⟩, end_date := none, rent_amount := some 1000, deposit_amount := none, payment_day := some 5, terms := none, notes := none, property_id := 1, tenant_id := 2 }
      { users := [⟨2, .tenant⟩], properties := [⟨1, .available, 3⟩], contracts := [], payments := [], maintenance_requests := [], next_contract_id := 1, next_payment_id := 1 }
      = .ok
        ({ users := [⟨2, .tenant⟩], properties := [⟨1, .rented, 3⟩], contracts := [{ id := 1, type := .rental, status := .pending, start_date := ⟨2024,1,1⟩, end_date := none, rent_amount := some 1000, deposit_amount := none, payment_day := some 5, terms := none, notes := none, property_id := 1, tenant_id := 2 }], payments := [], maintenance_requests := [], next_contract_id := 2, next_payment_id := 1 },
         { id := 1, type := .rental, status := .pending, start_date := ⟨2024,1,1⟩, end_date := none, rent_amount := some 1000, deposit_amount := none, payment_day := some 5, terms := none, notes := none, property_id := 1, tenant_id := 2 }) ∧
    ¬ RentedInv { users := [⟨2, .tenant⟩], properties := [⟨1, .rented, 3⟩], contracts := [{ id := 1, type := .rental, status := .pending, start_date := ⟨2024,1,1⟩, end_date := none, rent_amount := some 1000, deposit_amount := none, payment_day := some 5, terms := none, notes := none, property_id := 1, tenant_id := 2 }], payments := [], maintenance_requests := [], next_contract_id := 2, next_payment_id := 1 } :=
  ⟨by decide, rfl, by decide⟩

/-- C1 (amended): the rented-status predicate (`rented` iff exactly one active
contract) is preserved by `create_contract` only under the conditions the code
actually guarantees: the caller supplies status `active` and no active
contract references the property yet (property ids being distinct, as the
primary key makes them). It is not an invariant of all exposed operations:
creating with status `pending` breaks it, as the counterexample shows. -/
theorem C1_create_active_preserves_rented_inv (s : DB) (r : ContractCreate) (s' : DB)
    (c : Contract)
    (hnodup : (s.properties.map Property.id).Nodup)
    (hinv : RentedInv s)
    (hst : r.status = ContractStatus.active)
    (hzero : countActive s r.property_id = 0)
    (hok : create_contract r s = .ok (s', c)) :
    RentedInv s' := by
  cases hfp : findProperty s r.property_id with
  | none => simp [create_contract, hfp] at hok
  | some p =>
    by_cases hav : p.status = PropertyStatus.available
    · cases hfu : findUser s r.tenant_id with
      | none => simp [create_contract, hfp, hav, hfu] at hok
      | some u =>
        simp only [create_contract, hfp, hfu] at hok
        rw [if_neg (by simp [hav])] at hok
        simp only [Except.ok.injEq, Prod.mk.injEq] at hok
        obtain ⟨hs', hc⟩ := hok
        subst hs'
        obtain ⟨l₁, l₂, heq, ha, hmiss⟩ := find?_split hfp
        have hpid : p.id = r.property_id := by simpa using ha
        intro q hq
        simp only at hq
        rw [heq, replaceFirstBy_append _ _ _ _ _ hmiss ha] at hq
        show q.status = PropertyStatus.rented ↔ countActiveL _ q.id = 1
        rw [countActiveL_append]
        simp only [hst, and_true]
        rcases List.mem_append.mp hq with hq1 | hq2
        · have hqs : q ∈ s.properties := heq ▸ List.mem_append_left _ hq1
          have hne : q.id ≠ p.id :=
            nodup_key_ne Property.id (heq ▸ hnodup) (Or.inl hq1)
          rw [if_neg (fun hcontra => hne (by rw [hpid, hcontra]))]
          simpa using hinv q hqs
        · rcases List.mem_cons.mp hq2 with rfl | hq2
          · have h0 : countActiveL s.contracts r.property_id = 0 := hzero
            simp [hpid, h0]
          · have hqs : q ∈ s.properties :=
              heq ▸ List.mem_append_right _ (List.mem_cons_of_mem _ hq2)
            have hne : q.id ≠ p.id :=
              nodup_key_ne Property.id (heq ▸ hnodup) (Or.inr hq2)
            rw [if_neg (fun hcontra => hne (by rw [hpid, hcontra]))]
            simpa using hinv q hqs
    · simp only [create_contract, hfp] at hok
      rw [if_pos hav] at hok
      exact absurd hok (by simp)

/-- Witness for C1: a concrete active-status creation on a fresh property,
with the invariant holding afterwards. -/
theorem C1_create_active_preserves_rented_inv_witness :
    RentedInv { users := [⟨2, .tenant⟩], properties := [⟨1, .rented, 3⟩], contracts := [{ id := 1, type := .rental, status := .active, start_date := ⟨2024,1,1⟩, end_date := none, rent_amount := some 1000, deposit_amount := none, payment_day := some 5, terms := none, notes := none, property_id := 1, tenant_id := 2 }], payments := [], maintenance_requests := [], next_contract_id := 2, next_payment_id := 1 } :=
  C1_create_active_preserves_rented_inv
    { users := [⟨2, .tenant⟩], properties := [⟨1, .available, 3⟩], contracts := [], payments := [], maintenance_requests := [], next_contract_id := 1, next_payment_id := 1 }
    { type := .rental, status := .active, start_date := ⟨2024,1,1⟩, end_date := none, rent_amount := some 1000, deposit_amount := none, payment_day := some 5, terms := none, notes := none, property_id := 1, tenant_id := 2 }
    _ _ (by decide) (by decide) rfl (by decide) rfl

/-! ### C3 — terminate_contract -/

/-- C2 (counterexample): creating a contract against a non-available property
fails with HTTP 400 Bad Request, not 409 Conflict as the claim states. -/
theorem C2_not_available_is_400_not_409 :
    create_contract
      { type := .rental, status := .active, start_date := ⟨2024,1,1⟩, end_date := none, rent_amount := some 1000, deposit_amount := none, payment_day := some 5, terms := none, notes := none, property_id := 1, tenant_id := 2 }
      { users := [⟨2, .tenant⟩], properties := [⟨1, .rented, 3⟩], contracts := [], payments := [], maintenance_requests := [], next_contract_id := 1, next_payment_id := 1 }
      = .error (.http 400 "Property is not available") ∧
    errorCode (create_contract
      { type := .rental, status := .active, start_date := ⟨2024,1,1⟩, end_date := none, rent_amount := some 1000, deposit_amount := none, payment_day := some 5, terms := none, notes := none, property_id := 1, tenant_id := 2 }
      { users := [⟨2, .tenant⟩], properties := [⟨1, .rented, 3⟩], contracts := [], payments := [], maintenance_requests := [], next_contract_id := 1, next_payment_id := 1 })
      ≠ some 409 :=
  ⟨rfl, by decide⟩

/-- C3 (amended): terminating a missing contract fails with 404; terminating
an already-terminated contract fails with HTTP 400 Bad Request (the code
raises 400, not 409 Conflict) and, failures carrying no state, changes
nothing; for any other current status (property present, as foreign-key
integrity guarantees) the call succeeds, the returned contract has status
terminated and end_date = today, the stored row is that contract, the
property is flipped back to available, and a second terminate call — on any
later day — fails with 400, leaving end_date exactly as the first call set
it. -/
theorem C3_terminate_contract_spec (today : Date) (s : DB) (cid : Nat) :
    (findContract s cid = none →
      terminate_contract today cid s = .error (.http 404 "Contract not found")) ∧
    (∀ c, findContract s cid = some c → c.status = ContractStatus.terminated →
      terminate_contract today cid s = .error (.http 400 "Contract is already terminated")) ∧
    (∀ c p, findContract s cid = some c → c.status ≠ ContractStatus.terminated →
      findProperty s c.property_id = some p →
      isOkB (terminate_contract today cid s) = true) ∧
    (∀ c, findContract s cid = some c → c.status ≠ ContractStatus.terminated →
      ∀ s' c', terminate_contract today cid s = .ok (s', c') →
        c' = { c with status := ContractStatus.terminated, end_date := some today } ∧
        findContract s' cid = some c' ∧
        (∀ p, findProperty s c.property_id = some p →
          findProperty s' c.property_id = some { p with status := PropertyStatus.available }) ∧
        s'.payments = s.payments ∧ s'.users = s.users ∧
        (∀ t₂, terminate_contract t₂ cid s'
          = .error (.http 400 "Contract is already terminated"))) := by
  refine ⟨?_, ?_, ?_, ?_⟩
  · intro h
    simp [terminate_contract, h]
  · intro c hc hterm
    simp [terminate_contract, hc, hterm]
  · intro c p hc hterm hp
    simp [terminate_contract, hc, hterm, hp, isOkB]
  · intro c hc hterm s' c' hok
    cases hp : findProperty s c.property_id with
    | none =>
      rw [terminate_contract] at hok
      rw [hc] at hok
      simp only at hok
      rw [if_neg hterm, hp] at hok
      exact absurd hok (by simp)
    | some p =>
      rw [terminate_contract] at hok
      rw [hc] at hok
      simp only at hok
      rw [if_neg hterm, hp] at hok
      simp only [Except.ok.injEq, Prod.mk.injEq] at hok
      obtain ⟨hs', hc'⟩ := hok
      subst hs'
      obtain ⟨l₁, l₂, heq, ha, hmiss⟩ := find?_split hc
      have hfind' : findContract
          { s with
            contracts := replaceFirstBy (fun d => d.id == cid)
              { c with status := ContractStatus.terminated, end_date := some today } s.contracts
            properties := replaceFirstBy (fun q => q.id == c.property_id)
              { p with status := PropertyStatus.available } s.properties }
          cid = some { c with status := ContractStatus.terminated, end_date := some today } := by
        show (replaceFirstBy (fun d => d.id == cid) _ s.contracts).find? _ = _
        rw [heq, replaceFirstBy_append _ _ _ _ _ hmiss ha]
        exact find?_prefix_cons _ _ _ _ hmiss (by simpa using ha)
      refine ⟨hc'.symm, ?_, ?_, rfl, rfl, ?_⟩
      · rw [← hc']
        exact hfind'
      · intro p₂ hp₂
        obtain rfl : p = p₂ := Option.some.inj hp₂
        obtain ⟨m₁, m₂, heqp, hap, hmissp⟩ := find?_split hp
        show (replaceFirstBy (fun q => q.id == c.property_id) _ s.properties).find? _ = _
        rw [heqp, replaceFirstBy_append _ _ _ _ _ hmissp hap]
        exact find?_prefix_cons _ _ _ _ hmissp (by simpa using hap)
      · intro t₂
        rw [terminate_contract, hfind']
        simp

/-- Witness for C3: after a concrete successful termination, the second call
fails with 400. -/
theorem C3_terminate_contract_spec_witness :
    terminate_contract ⟨2024,7,1⟩ 1
      { users := [⟨2, .tenant⟩], properties := [⟨1, .available, 3⟩], contracts := [{ id := 1, type := .rental, status := .terminated, start_date := ⟨2024,1,1⟩, end_date := some ⟨2024,6,1⟩, rent_amount := some 1000, deposit_amount := none, payment_day := some 5, terms := none, notes := none, property_id := 1, tenant_id := 2 }], payments := [], maintenance_requests := [], next_contract_id := 2, next_payment_id := 1 }
      = .error (.http 400 "Contract is already terminated") :=
  (C3_terminate_contract_spec ⟨2024,7,1⟩
    { users := [⟨2, .tenant⟩], properties := [⟨1, .available, 3⟩], contracts := [{ id := 1, type := .rental, status := .terminated, start_date := ⟨2024,1,1⟩, end_date := some ⟨2024,6,1⟩, rent_amount := some 1000, deposit_amount := none, payment_day := some 5, terms := none, notes := none, property_id := 1, tenant_id := 2 }], payments := [], maintenance_requests := [], next_contract_id := 2, next_payment_id := 1 }
    1).2.1 _ rfl rfl

/-- C3 (counterexample): the double-terminate failure is HTTP 400 Bad
Request, not 409 Conflict as the claim states. -/
theorem C3_double_terminate_is_400_not_409 :
    errorCode (terminate_contract ⟨2024,7,1⟩ 1
      { users := [⟨2, .tenant⟩], properties := [⟨1, .available, 3⟩], contracts := [{ id := 1, type := .rental, status := .terminated, start_date := ⟨2024,1,1⟩, end_date := some ⟨2024,6,1⟩, rent_amount := some 1000, deposit_amount := none, payment_day := some 5, terms := none, notes := none, property_id := 1, tenant_id := 2 }], payments := [], maintenance_requests := [], next_contract_id := 2, next_payment_id := 1 })
      = some 400 ∧ (400 : Nat) ≠ 409 :=
  ⟨rfl, by decide⟩

/-! ### C5 — mark_payment_as_paid, C7 — delete_property -/

/-- C5 (amended): marking a missing payment paid fails with 404; marking an
already-paid payment fails with HTTP 400 Bad Request (the code raises 400,
not 409 Conflict) and, failures carrying no state, leaves paid_date and every
other field unchanged; for any other current status the call succeeds, the
stored payment has status paid, paid_date = today and all other fields as
before, and a second mark-paid call — on any later day — fails with 400, so
the paid status is never reversed by this operation. -/
theorem C5_mark_paid_spec (today : Date) (s : DB) (payid : Nat) :
    (findPayment s payid = none →
      mark_payment_as_paid today payid s = .error (.http 404 "Payment not found")) ∧
    (∀ pay, findPayment s payid = some pay → pay.status = PaymentStatus.paid →
      mark_payment_as_paid today payid s
        = .error (.http 400 "Payment is already marked as paid")) ∧
    (∀ pay, findPayment s payid = some pay → pay.status ≠ PaymentStatus.paid →
      isOkB (mark_payment_as_paid today payid s) = true) ∧
    (∀ pay, findPayment s payid = some pay → pay.status ≠ PaymentStatus.paid →
      ∀ s' pay', mark_payment_as_paid today payid s = .ok (s', pay') →
        pay' = { pay with status := PaymentStatus.paid, paid_date := some today } ∧
        findPayment s' payid = some pay' ∧
        s'.contracts = s.contracts ∧ s'.properties = s.properties ∧ s'.users = s.users ∧
        s'.maintenance_requests = s.maintenance_requests ∧
        (∀ t₂, mark_payment_as_paid t₂ payid s'
          = .error (.http 400 "Payment is already marked as paid"))) := by
  refine ⟨?_, ?_, ?_, ?_⟩
  · intro h
    simp [mark_payment_as_paid, h]
  · intro pay hpay hpaid
    simp [mark_payment_as_paid, hpay, hpaid]
  · intro pay hpay hpaid
    simp [mark_payment_as_paid, hpay, hpaid, isOkB]
  · intro pay hpay hpaid s' pay' hok
    rw [mark_payment_as_paid] at hok
    rw [hpay] at hok
    simp only at hok
    rw [if_neg hpaid] at hok
    simp only [Except.ok.injEq, Prod.mk.injEq] at hok
    obtain ⟨hs', hpay'⟩ := hok
    subst hs'
    obtain ⟨l₁, l₂, heq, ha, hmiss⟩ := find?_split hpay
    have hfind' : findPayment
        { s with
          payments := replaceFirstBy (fun q => q.id == payid)
            { pay with status := PaymentStatus.paid, paid_date := some today } s.payments }
        payid = some { pay with status := PaymentStatus.paid, paid_date := some today } := by
      show (replaceFirstBy (fun q => q.id == payid) _ s.payments).find? _ = _
      rw [heq, replaceFirstBy_append _ _ _ _ _ hmiss ha]
      exact find?_prefix_cons _ _ _ _ hmiss (by simpa using ha)
    refine ⟨hpay'.symm, ?_, rfl, rfl, rfl, rfl, ?_⟩
    · rw [← hpay']
      exact hfind'
    · intro t₂
      rw [mark_payment_as_paid, hfind']
      simp

/-- Witness for C5: a concrete already-paid payment is rejected with 400. -/
theorem C5_mark_paid_spec_witness :
    mark_payment_as_paid ⟨2024,7,1⟩ 1
      { users := [], properties := [], contracts := [], payments := [{ id := 1, amount := 1000, type := .rent, status := .paid, due_date := ⟨2024,6,5⟩, paid_date := some ⟨2024,6,2⟩, reference := none, notes := none, contract_id := 4 }], maintenance_requests := [], next_contract_id := 1, next_payment_id := 2 }
      = .error (.http 400 "Payment is already marked as paid") :=
  (C5_mark_paid_spec ⟨2024,7,1⟩
    { users := [], properties := [], contracts := [], payments := [{ id := 1, amount := 1000, type := .rent, status := .paid, due_date := ⟨2024,6,5⟩, paid_date := some ⟨2024,6,2⟩, reference := none, notes := none, contract_id := 4 }], maintenance_requests := [], next_contract_id := 1, next_payment_id := 2 }
    1).2.1 _ rfl rfl

/-- C5 (counterexample): the already-paid failure is HTTP 400 Bad Request,
not 409 Conflict as the claim states. -/
theorem C5_mark_paid_is_400_not_409 :
    errorCode (mark_payment_as_paid ⟨2024,7,1⟩ 1
      { users := [], properties := [], contracts := [], payments := [{ id := 1, amount := 1000, type := .rent, status := .paid, due_date := ⟨2024,6,5⟩, paid_date := some ⟨2024,6,2⟩, reference := none, notes := none, contract_id := 4 }], maintenance_requests := [], next_contract_id := 1, next_payment_id := 2 })
      = some 400 ∧ (400 : Nat) ≠ 409 :=
  ⟨rfl, by decide⟩

/-- C7 (amended): deleting a missing property fails with 404; deleting a
property referenced by at least one contract row — of any status, a single
historical terminated contract included — fails with HTTP 400 Bad Request
(the code raises 400, not 409 Conflict); deletion succeeds, removing the
property, exactly when no contract references it. -/
theorem C7_delete_property_spec (s : DB) (pid : Nat) :
    (findProperty s pid = none →
      delete_property pid s = .error (.http 404 "Property not found")) ∧
    (∀ p, findProperty s pid = some p →
      s.contracts.filter (fun c => c.property_id == p.id) ≠ [] →
      delete_property pid s = .error (.http 400 "Cannot delete property with active contracts")) ∧
    (∀ p, findProperty s pid = some p →
      s.contracts.filter (fun c => c.property_id == p.id) = [] →
      delete_property pid s
        = .ok { s with properties := removeFirstBy (fun q => q.id == pid) s.properties }) := by
  refine ⟨?_, ?_, ?_⟩
  · intro h
    simp [delete_property, h]
  · intro p hp hne
    rw [delete_property, hp]
    simp only
    rw [if_pos hne]
  · intro p hp hnil
    rw [delete_property, hp]
    simp only
    rw [if_neg (by simp [hnil])]

/-- Witness for C7: a property with one historical terminated contract is
blocked from deletion with 400. -/
theorem C7_delete_property_spec_witness :
    delete_property 1
      { users := [⟨2, .tenant⟩], properties := [⟨1, .available, 3⟩], contracts := [{ id := 1, type := .rental, status := .terminated, start_date := ⟨2023,1,1⟩, end_date := some ⟨2023,12,1⟩, rent_amount := some 900, deposit_amount := none, payment_day := some 3, terms := none, notes := none, property_id := 1, tenant_id := 2 }], payments := [], maintenance_requests := [], next_contract_id := 2, next_payment_id := 1 }
      = .error (.http 400 "Cannot delete property with active contracts") :=
  (C7_delete_property_spec
    { users := [⟨2, .tenant⟩], properties := [⟨1, .available, 3⟩], contracts := [{ id := 1, type := .rental, status := .terminated, start_date := ⟨2023,1,1⟩, end_date := some ⟨2023,12,1⟩, rent_amount := some 900, deposit_amount := none, payment_day := some 3, terms := none, notes := none, property_id := 1, tenant_id := 2 }], payments := [], maintenance_requests := [], next_contract_id := 2, next_payment_id := 1 }
    1).2.1 _ rfl (by decide)

/-- C7 (counterexample): the contract-blocked deletion fails with HTTP 400
Bad Request, not 409 Conflict as the claim states. -/
theorem C7_delete_blocked_is_400_not_409 :
    errorCode (delete_property 1
      { users := [⟨2, .tenant⟩], properties := [⟨1, .available, 3⟩], contracts := [{ id := 1, type := .rental, status := .terminated, start_date := ⟨2023,1,1⟩, end_date := some ⟨2023,12,1⟩, rent_amount := some 900, deposit_amount := none, payment_day := some 3, terms := none, notes := none, property_id := 1, tenant_id := 2 }], payments := [], maintenance_requests := [], next_contract_id := 2, next_payment_id := 1 })
      = some 400 ∧ (400 : Nat) ≠ 409 :=
  ⟨rfl, by decide⟩

/-! ### C9 — update_contract frame semantics, C8 — tenant-scoped contract list -/

/-- C9 (confirmed): the generic contract update has frame semantics — exactly
the fields present in the request are written, every absent field keeps its
prior value, the contract's id/property_id/tenant_id are never written, no
other contract row changes, and the properties table is untouched even when
the update sets the contract's status to terminated (no release side
effect). -/
theorem C9_update_contract_frame (s : DB) (cid : Nat) (u : ContractUpdate) :
    (findContract s cid = none →
      update_contract cid u s = .error (.http 404 "Contract not found")) ∧
    (∀ c, findContract s cid = some c → isOkB (update_contract cid u s) = true) ∧
    (∀ c, findContract s cid = some c →
      ∀ s' c', update_contract cid u s = .ok (s', c') →
        s'.properties = s.properties ∧
        s'.payments = s.payments ∧ s'.users = s.users ∧
        s'.maintenance_requests = s.maintenance_requests ∧
        s'.next_contract_id = s.next_contract_id ∧
        s'.next_payment_id = s.next_payment_id ∧
        c'.id = c.id ∧ c'.property_id = c.property_id ∧ c'.tenant_id = c.tenant_id ∧
        c'.type = u.type.getD c.type ∧ c'.status = u.status.getD c.status ∧
        c'.start_date = u.start_date.getD c.start_date ∧
        c'.end_date = u.end_date.getD c.end_date ∧
        c'.rent_amount = u.rent_amount.getD c.rent_amount ∧
        c'.deposit_amount = u.deposit_amount.getD c.deposit_amount ∧
        c'.payment_day = u.payment_day.getD c.payment_day ∧
        c'.terms = u.terms.getD c.terms ∧ c'.notes = u.notes.getD c.notes ∧
        s'.contracts = replaceFirstBy (fun d => d.id == cid) c' s.contracts) := by
  refine ⟨?_, ?_, ?_⟩
  · intro h
    simp [update_contract, h]
  · intro c hc
    simp [update_contract, hc, isOkB]
  · intro c hc s' c' hok
    rw [update_contract] at hok
    rw [hc] at hok
    simp only [Except.ok.injEq, Prod.mk.injEq] at hok
    obtain ⟨hs', hc'⟩ := hok
    subst hs'
    subst hc'
    exact ⟨rfl, rfl, rfl, rfl, rfl, rfl, rfl, rfl, rfl, rfl, rfl, rfl, rfl, rfl, rfl, rfl,
      rfl, rfl, rfl⟩

/-- Witness for C9: a concrete status-to-terminated update succeeds. -/
theorem C9_update_contract_frame_witness :
    isOkB (update_contract 1
      { type := none, status := some .terminated, start_date := none, end_date := none, rent_amount := none, deposit_amount := none, payment_day := none, terms := none, notes := none }
      { users := [⟨2, .tenant⟩], properties := [⟨1, .rented, 3⟩], contracts := [{ id := 1, type := .rental, status := .active, start_date := ⟨2024,1,1⟩, end_date := none, rent_amount := some 1000, deposit_amount := none, payment_day := some 5, terms := none, notes := none, property_id := 1, tenant_id := 2 }], payments := [], maintenance_requests := [], next_contract_id := 2, next_payment_id := 1 })
      = true :=
  (C9_update_contract_frame
    { users := [⟨2, .tenant⟩], properties := [⟨1, .rented, 3⟩], contracts := [{ id := 1, type := .rental, status := .active, start_date := ⟨2024,1,1⟩, end_date := none, rent_amount := some 1000, deposit_amount := none, payment_day := some 5, terms := none, notes := none, property_id := 1, tenant_id := 2 }], payments := [], maintenance_requests := [], next_contract_id := 2, next_payment_id := 1 }
    1
    { type := none, status := some .terminated, start_date := none, end_date := none, rent_amount := none, deposit_amount := none, payment_day := none, terms := none, notes := none }).2.1
    _ rfl

/-- C8 (confirmed): for a tenant caller with a genuine row id (ids are
nonzero), `GET /contracts` returns only contracts whose tenant_id is the
caller's own id, and the caller-supplied tenant_id filter has no influence on
the result: the endpoint overwrites it with the caller's id before querying. -/
theorem C8_contracts_tenant_scope (s : DB) (A : User) (skip limit : Nat)
    (pid tid tid' : Option Nat) (st : Option ContractStatus)
    (hrole : A.role = UserRole.tenant) (hid : A.id ≠ 0) :
    (∀ c ∈ read_contracts A skip limit pid tid st s, c.tenant_id = A.id) ∧
    read_contracts A skip limit pid tid st s = read_contracts A skip limit pid tid' st s := by
  have htr : truthy (some A.id) = true := by simp [truthy, hid]
  constructor
  · intro c hc
    simp only [read_contracts, hrole, if_pos] at hc
    simp only [get_contracts, htr, if_true] at hc
    have hc₁ := (List.take_subset _ _) hc
    have hc₂ := (List.drop_subset _ _) hc₁
    have hc₃ : c ∈ (if truthy pid then
        s.contracts.filter (fun d => d.property_id == pid.getD 0) else s.contracts).filter
          (fun d => d.tenant_id == A.id) := by
      cases st with
      | none => exact hc₂
      | some v => exact List.mem_of_mem_filter hc₂
    simpa using List.of_mem_filter hc₃
  · simp only [read_contracts, hrole, if_pos]

/-- Witness for C8: a concrete tenant caller supplying another tenant's id as
the filter gets the result their own id would give. -/
theorem C8_contracts_tenant_scope_witness :
    read_contracts ⟨1, .tenant⟩ 0 100 none (some 2) none { users := [⟨1, .tenant⟩, ⟨2, .tenant⟩], properties := [⟨1, .rented, 3⟩, ⟨2, .rented, 3⟩], contracts := [{ id := 10, type := .rental, status := .active, start_date := ⟨2024,1,1⟩, end_date := none, rent_amount := some 800, deposit_amount := none, payment_day := some 2, terms := none, notes := none, property_id := 1, tenant_id := 1 }, { id := 20, type := .rental, status := .active, start_date := ⟨2024,1,1⟩, end_date := none, rent_amount := some 900, deposit_amount := none, payment_day := some 3, terms := none, notes := none, property_id := 2, tenant_id := 2 }], payments := [{ id := 100, amount := 900, type := .rent, status := .pending, due_date := ⟨2024,2,3⟩, paid_date := none, reference := none, notes := none, contract_id := 20 }], maintenance_requests := [{ id := 40, type := .repair, status := .pending, priority := 3, property_id := 2, requested_by_id := 2 }], next_contract_id := 21, next_payment_id := 101 }
      = read_contracts ⟨1, .tenant⟩ 0 100 none none none { users := [⟨1, .tenant⟩, ⟨2, .tenant⟩], properties := [⟨1, .rented, 3⟩, ⟨2, .rented, 3⟩], contracts := [{ id := 10, type := .rental, status := .active, start_date := ⟨2024,1,1⟩, end_date := none, rent_amount := some 800, deposit_amount := none, payment_day := some 2, terms := none, notes := none, property_id := 1, tenant_id := 1 }, { id := 20, type := .rental, status := .active, start_date := ⟨2024,1,1⟩, end_date := none, rent_amount := some 900, deposit_amount := none, payment_day := some 3, terms := none, notes := none, property_id := 2, tenant_id := 2 }], payments := [{ id := 100, amount := 900, type := .rent, status := .pending, due_date := ⟨2024,2,3⟩, paid_date := none, reference := none, notes := none, contract_id := 20 }], maintenance_requests := [{ id := 40, type := .repair, status := .pending, priority := 3, property_id := 2, requested_by_id := 2 }], next_contract_id := 21, next_payment_id := 101 } :=
  (C8_contracts_tenant_scope { users := [⟨1, .tenant⟩, ⟨2, .tenant⟩], properties := [⟨1, .rented, 3⟩, ⟨2, .rented, 3⟩], contracts := [{ id := 10, type := .rental, status := .active, start_date := ⟨2024,1,1⟩, end_date := none, rent_amount := some 800, deposit_amount := none, payment_day := some 2, terms := none, notes := none, property_id := 1, tenant_id := 1 }, { id := 20, type := .rental, status := .active, start_date := ⟨2024,1,1⟩, end_date := none, rent_amount := some 900, deposit_amount := none, payment_day := some 3, terms := none, notes := none, property_id := 2, tenant_id := 2 }], payments := [{ id := 100, amount := 900, type := .rent, status := .pending, due_date := ⟨2024,2,3⟩, paid_date := none, reference := none, notes := none, contract_id := 20 }], maintenance_requests := [{ id := 40, type := .repair, status := .pending, priority := 3, property_id := 2, requested_by_id := 2 }], next_contract_id := 21, next_payment_id := 101 }
    ⟨1, .tenant⟩ 0 100 none (some 2) none none rfl (by decide)).2

/-! ### C4 — generate_rent_payments crashes, C10 — status is never consulted -/

/-- C4 (code-bug evaluation): `generate_rent_payments` is not total. With
payment_day = 31 and a range containing February, the loop's
`date(year, month, payment_day)` raises ValueError (an unhandled crash); with
a range crossing a year boundary, the step `date(year, month + 1, day)`
reaches month 13 and raises ValueError; the missing rent_amount guard, by
contrast, is a handled 400; and for a payment_day and range where every
constructed date exists, generation does succeed. -/
theorem C4_generate_rent_crashes :
    generate_rent_payments ⟨2024,1,15⟩ 1
      { users := [⟨2, .tenant⟩], properties := [⟨1, .rented, 3⟩], contracts := [{ id := 1, type := .rental, status := .active, start_date := ⟨2024,1,1⟩, end_date := some ⟨2024,3,15⟩, rent_amount := some 1000, deposit_amount := none, payment_day := some 31, terms := none, notes := none, property_id := 1, tenant_id := 2 }], payments := [], maintenance_requests := [], next_contract_id := 2, next_payment_id := 1 }
      = .error .valueError ∧
    generate_rent_payments ⟨2024,12,15⟩ 1
      { users := [⟨2, .tenant⟩], properties := [⟨1, .rented, 3⟩], contracts := [{ id := 1, type := .rental, status := .active, start_date := ⟨2024,1,1⟩, end_date := some ⟨2025,2,1⟩, rent_amount := some 1000, deposit_amount := none, payment_day := some 5, terms := none, notes := none, property_id := 1, tenant_id := 2 }], payments := [], maintenance_requests := [], next_contract_id := 2, next_payment_id := 1 }
      = .error .valueError ∧
    errorCode (generate_rent_payments ⟨2024,1,10⟩ 1
      { users := [⟨2, .tenant⟩], properties := [⟨1, .rented, 3⟩], contracts := [{ id := 1, type := .rental, status := .active, start_date := ⟨2024,1,1⟩, end_date := some ⟨2024,3,15⟩, rent_amount := none, deposit_amount := none, payment_day := some 31, terms := none, notes := none, property_id := 1, tenant_id := 2 }], payments := [], maintenance_requests := [], next_contract_id := 2, next_payment_id := 1 })
      = some 400 ∧
    isOkB (generate_rent_payments ⟨2024,1,15⟩ 1
      { users := [⟨2, .tenant⟩], properties := [⟨1, .rented, 3⟩], contracts := [{ id := 1, type := .rental, status := .active, start_date := ⟨2024,1,1⟩, end_date := some ⟨2024,3,20⟩, rent_amount := some 1000, deposit_amount := none, payment_day := some 5, terms := none, notes := none, property_id := 1, tenant_id := 2 }], payments := [], maintenance_requests := [], next_contract_id := 2, next_payment_id := 1 })
      = true :=
  ⟨rfl, rfl, rfl, rfl⟩

/-- C10 (counterexample): generation does not succeed for every terminated
contract with rent_amount and payment_day set — the unguarded date
arithmetic still crashes (payment_day = 31, range containing February), so
the claim's "generation succeeds" is false as stated. -/
theorem C10_terminated_generation_can_crash :
    generate_rent_payments ⟨2024,1,15⟩ 1
      { users := [⟨2, .tenant⟩], properties := [⟨1, .available, 3⟩], contracts := [{ id := 1, type := .rental, status := .terminated, start_date := ⟨2023,1,1⟩, end_date := some ⟨2024,3,15⟩, rent_amount := some 1000, deposit_amount := none, payment_day := some 31, terms := none, notes := none, property_id := 1, tenant_id := 2 }], payments := [], maintenance_requests := [], next_contract_id := 2, next_payment_id := 1 }
      = .error .valueError :=
  rfl

/-- C10 (amended): `generate_rent_payments` never consults the contract's
status — its outcome after the lookup is identical for active, terminated,
expired and pending contracts (it can still crash on invalid dates, which is
equally status-independent) — whereas single `create_payment` fails with
HTTP 400 whenever the parent contract's status is not active. -/
theorem C10_generation_ignores_status :
    (∀ (today : Date) (cid : Nat) (c : Contract) (σ : ContractStatus),
      generate_for_contract today cid { c with status := σ }
        = generate_for_contract today cid c) ∧
    (∀ (r : PaymentCreate) (s : DB) (c : Contract),
      findContract s r.contract_id = some c → c.status ≠ ContractStatus.active →
      create_payment r s = .error (.http 400 "Contract is not active")) := by
  constructor
  · intro today cid c σ
    cases c
    rfl
  · intro r s c h hne
    rw [create_payment, h]
    simp only
    rw [if_pos hne]

/-- Witness for C10: a concrete terminated contract generates the same
payments it would generate when active, while `create_payment` rejects it. -/
theorem C10_generation_ignores_status_witness :
    generate_for_contract ⟨2024,1,15⟩ 1
      { id := 1, type := .rental, status := .terminated, start_date := ⟨2024,1,1⟩, end_date := some ⟨2024,3,20⟩, rent_amount := some 1000, deposit_amount := none, payment_day := some 5, terms := none, notes := none, property_id := 1, tenant_id := 2 }
      = generate_for_contract ⟨2024,1,15⟩ 1
      { id := 1, type := .rental, status := .active, start_date := ⟨2024,1,1⟩, end_date := some ⟨2024,3,20⟩, rent_amount := some 1000, deposit_amount := none, payment_day := some 5, terms := none, notes := none, property_id := 1, tenant_id := 2 } ∧
    create_payment
      { amount := 1000, type := .rent, status := .pending, due_date := ⟨2024,2,5⟩, paid_date := none, reference := none, notes := none, contract_id := 1 }
      { users := [⟨2, .tenant⟩], properties := [⟨1, .available, 3⟩], contracts := [{ id := 1, type := .rental, status := .terminated, start_date := ⟨2024,1,1⟩, end_date := some ⟨2024,3,20⟩, rent_amount := some 1000, deposit_amount := none, payment_day := some 5, terms := none, notes := none, property_id := 1, tenant_id := 2 }], payments := [], maintenance_requests := [], next_contract_id := 2, next_payment_id := 1 }
      = .error (.http 400 "Contract is not active") :=
  ⟨C10_generation_ignores_status.1 ⟨2024,1,15⟩ 1
      { id := 1, type := .rental, status := .active, start_date := ⟨2024,1,1⟩, end_date := some ⟨2024,3,20⟩, rent_amount := some 1000, deposit_amount := none, payment_day := some 5, terms := none, notes := none, property_id := 1, tenant_id := 2 }
      ContractStatus.terminated,
   C10_generation_ignores_status.2
      { amount := 1000, type := .rent, status := .pending, due_date := ⟨2024,2,5⟩, paid_date := none, reference := none, notes := none, contract_id := 1 }
      { users := [⟨2, .tenant⟩], properties := [⟨1, .available, 3⟩], contracts := [{ id := 1, type := .rental, status := .terminated, start_date := ⟨2024,1,1⟩, end_date := some ⟨2024,3,20⟩, rent_amount := some 1000, deposit_amount := none, payment_day := some 5, terms := none, notes := none, property_id := 1, tenant_id := 2 }], payments := [], maintenance_requests := [], next_contract_id := 2, next_payment_id := 1 }
      _ rfl (by decide)⟩

/-! ### C6 — tenant list scoping leak -/

/-- C6 (code-bug evaluation): a tenant who supplies a contract_id (resp.
property_id) that is not their own has the filter silently dropped to None,
and the unfiltered query returns other tenants' rows. Here tenant 1 holds
only contract 10 on property 1, yet requesting contract_id = 20 returns the
payment of contract 20, which belongs to tenant 2; likewise requesting
property_id = 2 returns the maintenance request of property 2. -/
theorem C6_tenant_list_leak :
    read_payments ⟨1, .tenant⟩ 0 100 (some 20) none none { users := [⟨1, .tenant⟩, ⟨2, .tenant⟩], properties := [⟨1, .rented, 3⟩, ⟨2, .rented, 3⟩], contracts := [{ id := 10, type := .rental, status := .active, start_date := ⟨2024,1,1⟩, end_date := none, rent_amount := some 800, deposit_amount := none, payment_day := some 2, terms := none, notes := none, property_id := 1, tenant_id := 1 }, { id := 20, type := .rental, status := .active, start_date := ⟨2024,1,1⟩, end_date := none, rent_amount := some 900, deposit_amount := none, payment_day := some 3, terms := none, notes := none, property_id := 2, tenant_id := 2 }], payments := [{ id := 100, amount := 900, type := .rent, status := .pending, due_date := ⟨2024,2,3⟩, paid_date := none, reference := none, notes := none, contract_id := 20 }], maintenance_requests := [{ id := 40, type := .repair, status := .pending, priority := 3, property_id := 2, requested_by_id := 2 }], next_contract_id := 21, next_payment_id := 101 }
      = [{ id := 100, amount := 900, type := .rent, status := .pending, due_date := ⟨2024,2,3⟩, paid_date := none, reference := none, notes := none, contract_id := 20 }] ∧
    findContract { users := [⟨1, .tenant⟩, ⟨2, .tenant⟩], properties := [⟨1, .rented, 3⟩, ⟨2, .rented, 3⟩], contracts := [{ id := 10, type := .rental, status := .active, start_date := ⟨2024,1,1⟩, end_date := none, rent_amount := some 800, deposit_amount := none, payment_day := some 2, terms := none, notes := none, property_id := 1, tenant_id := 1 }, { id := 20, type := .rental, status := .active, start_date := ⟨2024,1,1⟩, end_date := none, rent_amount := some 900, deposit_amount := none, payment_day := some 3, terms := none, notes := none, property_id := 2, tenant_id := 2 }], payments := [{ id := 100, amount := 900, type := .rent, status := .pending, due_date := ⟨2024,2,3⟩, paid_date := none, reference := none, notes := none, contract_id := 20 }], maintenance_requests := [{ id := 40, type := .repair, status := .pending, priority := 3, property_id := 2, requested_by_id := 2 }], next_contract_id := 21, next_payment_id := 101 } 20
      = some { id := 20, type := .rental, status := .active, start_date := ⟨2024,1,1⟩, end_date := none, rent_amount := some 900, deposit_amount := none, payment_day := some 3, terms := none, notes := none, property_id := 2, tenant_id := 2 } ∧
    (2 : Nat) ≠ 1 ∧
    read_maintenance_requests ⟨1, .tenant⟩ 0 100 (some 2) none none none { users := [⟨1, .tenant⟩, ⟨2, .tenant⟩], properties := [⟨1, .rented, 3⟩, ⟨2, .rented, 3⟩], contracts := [{ id := 10, type := .rental, status := .active, start_date := ⟨2024,1,1⟩, end_date := none, rent_amount := some 800, deposit_amount := none, payment_day := some 2, terms := none, notes := none, property_id := 1, tenant_id := 1 }, { id := 20, type := .rental, status := .active, start_date := ⟨2024,1,1⟩, end_date := none, rent_amount := some 900, deposit_amount := none, payment_day := some 3, terms := none, notes := none, property_id := 2, tenant_id := 2 }], payments := [{ id := 100, amount := 900, type := .rent, status := .pending, due_date := ⟨2024,2,3⟩, paid_date := none, reference := none, notes := none, contract_id := 20 }], maintenance_requests := [{ id := 40, type := .repair, status := .pending, priority := 3, property_id := 2, requested_by_id := 2 }], next_contract_id := 21, next_payment_id := 101 }
      = [{ id := 40, type := .repair, status := .pending, priority := 3, property_id := 2, requested_by_id := 2 }] :=
  ⟨rfl, rfl, by decide, rfl⟩

/-! Fidelity of the fuelled loop: `genLoop` satisfies exactly the recurrence
of the Python `while` loop, so the fuel bound never cuts an iteration short. -/

/-- Characterisation of the Python date order. -/
lemma leb_iff (a b : Date) :
    Date.leb a b = true ↔
      (a.year < b.year ∨ (a.year = b.year ∧
        (a.month < b.month ∨ (a.month = b.month ∧ a.day ≤ b.day)))) := by
  unfold Date.leb
  by_cases h1 : a.year = b.year <;> by_cases h2 : a.month = b.month <;>
    simp [h1, h2] <;> omega

/-- A successful `date` constructor returns its arguments, months in range. -/
lemma mkDate_some {y m d : Nat} {x : Date} (h : mkDate y m d = some x) :
    x = ⟨y, m, d⟩ ∧ 1 ≤ m ∧ m ≤ 12 := by
  unfold mkDate at h
  split at h
  next hc => exact ⟨(Option.some.inj h).symm, hc.2.2.1, hc.2.2.2.1⟩
  next => cases h

/-- The loop guard holding implies the month counter has not passed the end. -/
lemma monthIdx_le_of_leb {a b : Date} (hma : 1 ≤ a.month ∧ a.month ≤ 12)
    (hmb : 1 ≤ b.month ∧ b.month ≤ 12) (h : Date.leb a b = true) :
    monthIdx a ≤ monthIdx b := by
  rcases (leb_iff a b).mp h with hy | ⟨hy, hm | ⟨hm, _⟩⟩ <;> unfold monthIdx <;> omega

/-- The month counter having passed the end implies the loop guard fails. -/
lemma leb_eq_false_of_monthIdx_lt {a b : Date} (hma : 1 ≤ a.month ∧ a.month ≤ 12)
    (hmb : 1 ≤ b.month ∧ b.month ≤ 12) (h : monthIdx b < monthIdx a) :
    Date.leb a b = false := by
  rw [← Bool.not_eq_true, leb_iff]
  unfold monthIdx at h
  intro hcontra
  rcases hcontra with hy | ⟨hy, hm | ⟨hm, _⟩⟩ <;> omega

/-- `genLoop` satisfies the recurrence of the source's `while` loop: stop when
`cur > endD`; otherwise build the month's due date (or crash), step to
`date(year, month + 1, day)` (or crash), and recurse. -/
lemma genLoop_unfold (cid amount pday : Nat) (endD cur : Date)
    (hcur : 1 ≤ cur.month ∧ cur.month ≤ 12) (hend : 1 ≤ endD.month ∧ endD.month ≤ 12) :
    genLoop cid amount pday endD cur =
      if Date.leb cur endD then
        match mkDate cur.year cur.month pday with
        | none => .error .valueError
        | some due =>
          match mkDate cur.year (cur.month + 1) cur.day with
          | none => .error .valueError
          | some next =>
            match genLoop cid amount pday endD next with
            | .error e => .error e
            | .ok rest => .ok (mkRentPayment cid amount due :: rest)
      else .ok [] := by
  unfold genLoop
  cases hfuel : monthIdx endD + 1 - monthIdx cur with
  | zero =>
    have hlt : monthIdx endD < monthIdx cur := by omega
    rw [leb_eq_false_of_monthIdx_lt hcur hend hlt]
    simp [genLoopFuel]
  | succ k =>
    by_cases hleb : Date.leb cur endD = true
    · rw [hleb]
      simp only [genLoopFuel, hleb, if_true]
      cases hdue : mkDate cur.year cur.month pday with
      | none => rfl
      | some due =>
        cases hnext : mkDate cur.year (cur.month + 1) cur.day with
        | none => rfl
        | some next =>
          obtain ⟨hnx, _, _⟩ := mkDate_some hnext
          have hstep : monthIdx next = monthIdx cur + 1 := by
            subst hnx; simp only [monthIdx]; omega
          have hle : monthIdx cur ≤ monthIdx endD := monthIdx_le_of_leb hcur hend hleb
          have hk : monthIdx endD + 1 - monthIdx next = k := by omega
          dsimp only
          rw [hk]
    · rw [Bool.not_eq_true] at hleb
      rw [hleb]
      simp [genLoopFuel, hleb]

end PropertyMgmt
